import Mathlib

/-!
Verification of the Julia-set fractal generator (proyecto.py).

The source is a Python program with a class FractalJulia that computes an
escape-time fractal over a width x height grid, both sequentially and in
parallel (four row-band fragments submitted to a thread pool, merged into a
shared output array under a lock, with a condition variable signalling
completion), and a metrics function comparing the two runs.

Shallow embedding conventions:
- Python complex float arithmetic is embedded over exact rationals: a value
  complex(re, im) becomes the structure Cplx with rational fields.  The test
  abs(z) <= 2 is embedded as normSq z <= 4, which is equivalent for exact
  arithmetic.  All concrete inputs used below are dyadic rationals on which
  Python double arithmetic is also exact.
- numpy arrays become total functions Nat -> Nat -> Nat (row y, column x);
  the source only reads indices inside the grid bounds.
- The concurrency of generar_fractal_paralelo (thread pool, output lock,
  condition variable) is embedded as a small-step event semantics on an
  orchestrator state; each modelled trace corresponds to a real interleaving
  of the Python program.
- Wall-clock timestamps become nonnegative rational durations; the
  accumulator updates of _fragmento_completado become explicit folds.
-/

/-- Rational-valued complex numbers, embedding Python complex values. -/
structure Cplx where
  re : ℚ
  im : ℚ
deriving DecidableEq, Repr

/-- Complex addition, embedding Python + on complex. -/
def Cplx.add (a b : Cplx) : Cplx := ⟨a.re + b.re, a.im + b.im⟩

/-- Complex multiplication, embedding Python * on complex. -/
def Cplx.mul (a b : Cplx) : Cplx :=
  ⟨a.re * b.re - a.im * b.im, a.re * b.im + a.im * b.re⟩

instance : Add Cplx := ⟨Cplx.add⟩

instance : Mul Cplx := ⟨Cplx.mul⟩

/-- Squared modulus; abs z <= 2 in the source is normSq z <= 4 here. -/
def Cplx.normSq (a : Cplx) : ℚ := a.re * a.re + a.im * a.im

/-- The while loop of fractal_julia (proyecto.py lines 22-26), with fuel
equal to the number of further iterations the cap still allows
(max_iteraciones - n), so that the loop condition n < max_iteraciones is
exactly fuel > 0.  Each pass checks abs(z) <= 2, then does z = z*z + c and
n = n + 1. -/
def julia_loop (c : Cplx) : Nat → Cplx → Nat → Nat
  | 0, _, n => n
  | fuel + 1, z, n =>
      if z.normSq ≤ 4 then julia_loop c fuel (z * z + c) (n + 1) else n

/-- fractal_julia (proyecto.py lines 20-26): iterate z = z*z + c from n = 0
while abs(z) <= 2 and n < max_iteraciones; return n. -/
def fractal_julia (max_iteraciones : Nat) (c z : Cplx) : Nat :=
  julia_loop c max_iteraciones z 0

/-- The affine transform used by both generar_fractal (lines 34-37) and
generar_fractal_secuencial (lines 90-93): cell (x, y) maps to the complex
number with real part x * (3 / ancho) - 2 and imaginary part
y * (3 / alto) - 1.5. -/
def coord (ancho alto : Nat) (x y : Nat) : Cplx :=
  ⟨(x : ℚ) * (3 / (ancho : ℚ)) - 2, (y : ℚ) * (3 / (alto : ℚ)) - 3 / 2⟩

/-- generar_fractal (proyecto.py lines 28-39): the block computed for one
fragment (inicio_y, fin_y), as a function of the local row ly = y - inicio_y
and the column x; cell value is the kernel at the transformed coordinate of
the global row inicio_y + ly.  The source only reads ly < fin_y - inicio_y;
the embedding is total. -/
def generar_fractal (ancho alto max_iteraciones : Nat) (c : Cplx)
    (fragmento : Nat × Nat) (ly x : Nat) : Nat :=
  fractal_julia max_iteraciones c (coord ancho alto x (fragmento.1 + ly))

/-- generar_fractal_secuencial (proyecto.py lines 84-99): after the run,
salida[y, x] holds the kernel value at the transformed coordinate of
(x, y).  The source writes exactly the cells with y < alto, x < ancho; the
embedding is the total function giving each such cell its written value. -/
def generar_fractal_secuencial (ancho alto max_iteraciones : Nat)
    (c : Cplx) (y x : Nat) : Nat :=
  fractal_julia max_iteraciones c (coord ancho alto x y)

/-- The fragment plan of generar_fractal_paralelo (proyecto.py lines 47-49):
tamaño_fragmentos = alto // 4; fragmentos = [(i*t, (i+1)*t) for i in
range(4)]; fragmentos[-1] = (fragmentos[-1][0], alto).  The comprehension
and the last-element replacement are unrolled into the explicit 4-list. -/
def fragmentos (alto : Nat) : List (Nat × Nat) :=
  [(0 * (alto / 4), 1 * (alto / 4)),
   (1 * (alto / 4), 2 * (alto / 4)),
   (2 * (alto / 4), 3 * (alto / 4)),
   (3 * (alto / 4), alto)]

/-- Row y lies in the half-open row range of fragment f. -/
def enFragmento (f : Nat × Nat) (y : Nat) : Prop := f.1 ≤ y ∧ y < f.2

instance (f : Nat × Nat) (y : Nat) : Decidable (enFragmento f y) := by
  unfold enFragmento; infer_instance

/-- The merge step of _fragmento_completado (proyecto.py line 75):
salida[inicio_y:fin_y, :] = fragmento_salida overwrites exactly the rows of
the fragment with the block values and leaves all other rows unchanged. -/
def fragmento_merge (ancho alto max_iteraciones : Nat) (c : Cplx)
    (f : Nat × Nat) (salida : Nat → Nat → Nat) : Nat → Nat → Nat :=
  fun y x =>
    if enFragmento f y then generar_fractal ancho alto max_iteraciones c f (y - f.1) x
    else salida y x

/-- The shared output grid after the fragments marked true in fusionados
have been merged (in index order) into the zero-initialised array
(proyecto.py line 15).  Fragments are row-disjoint, so merge order does not
affect the result. -/
def salidaEstado (ancho alto max_iteraciones : Nat) (c : Cplx)
    (fusionados : List Bool) : Nat → Nat → Nat :=
  (List.range 4).foldl
    (fun salida i =>
      if fusionados.getD i false then
        fragmento_merge ancho alto max_iteraciones c
          ((fragmentos alto).getD i (0, 0)) salida
      else salida)
    (fun _ _ => 0)

/-!
Event semantics of the synchronisation in generar_fractal_paralelo
(proyecto.py lines 58-62) and _fragmento_completado (lines 70-82).

The orchestrator acquires self.condicion, registers one done-callback per
future, and performs a single self.condicion.wait().  Each callback merges
its block under self.bloqueo_salida and then performs a single
self.condicion.notify() under self.condicion.  Two callback timings exist in
CPython:
- a future already finished when add_done_callback is called runs the
  callback immediately in the orchestrator thread; self.condicion is a
  Condition over an RLock already held by that thread, so the merge and the
  notify run inline, and the notify finds no waiter (the orchestrator has
  not called wait yet), so it is lost;
- a future that finishes later runs the callback on a worker thread; its
  notify must acquire self.condicion, which the orchestrator holds until
  wait() releases it, so the notify is delivered while the orchestrator is
  waiting (after wait() returns, further notifies have no effect on it).

wait() returns once it has been notified at least once.  Each modelled trace
is realisable by the Python program under some thread schedule.
-/

/-- Orchestrator synchronisation state: which of the four fragments have
been merged into salida, whether the orchestrator has called wait, whether
its wait has been notified, and whether wait has returned. -/
structure EstadoOrq where
  fusionados : List Bool
  esperando : Bool
  notificado : Bool
  retornado : Bool
deriving DecidableEq, Repr

/-- State when generar_fractal_paralelo reaches line 59: nothing merged,
wait not yet started. -/
def estadoInicialOrq : EstadoOrq := ⟨[false, false, false, false], false, false, false⟩

/-- The schedule events of one parallel run. -/
inductive EventoOrq where
  | completado_antes : Fin 4 → EventoOrq
  | inicia_espera : EventoOrq
  | completado_durante : Fin 4 → EventoOrq
  | retorna_espera : EventoOrq
deriving DecidableEq, Repr

/-- One scheduling step; none marks an event that the Python program cannot
perform in the given state.  completado_antes i is _fragmento_completado
for fragment i run inline at registration time (future already done): the
merge lands, the notify is lost.  completado_durante i is the callback on a
worker thread while the orchestrator waits: the merge lands and the notify
is delivered.  retorna_espera is wait() returning, which in CPython only
requires that at least one notify has been delivered to the waiter. -/
def pasoOrq (s : EstadoOrq) (e : EventoOrq) : Option EstadoOrq :=
  match e with
  | .completado_antes i =>
      if s.esperando = false ∧ s.retornado = false ∧ s.fusionados.getD (i : Nat) false = false then
        some { s with fusionados := s.fusionados.set (i : Nat) true }
      else none
  | .inicia_espera =>
      if s.esperando = false ∧ s.retornado = false then
        some { s with esperando := true }
      else none
  | .completado_durante i =>
      if s.esperando = true ∧ s.retornado = false ∧ s.fusionados.getD (i : Nat) false = false then
        some { s with fusionados := s.fusionados.set (i : Nat) true, notificado := true }
      else none
  | .retorna_espera =>
      if s.esperando = true ∧ s.notificado = true ∧ s.retornado = false then
        some { s with retornado := true }
      else none

/-- Run a schedule from the initial state; none if some event is not
enabled where it occurs. -/
def ejecutarOrq (tr : List EventoOrq) : Option EstadoOrq :=
  tr.foldl (fun o e => o.bind fun s => pasoOrq s e) (some estadoInicialOrq)

/-- The blocked state reached when all four fragments complete before the
orchestrator begins waiting: everything merged, wait started, never
notified. -/
def estadoBloqueado : EstadoOrq := ⟨[true, true, true, true], true, false, false⟩

/-!
Timing accumulator (proyecto.py lines 18, 76-79).  __init__ sets
tiempo_comunicacion_total = 0; each _fragmento_completado executes
tiempo_comunicacion_total += time.time() - future.start_time (the hasattr
guard always takes the += branch, since __init__ set the attribute);
generar_fractal_paralelo never writes the attribute.  Durations
time.time() - future.start_time are represented as rationals; they are
nonnegative since the merge happens after the submission timestamp.
-/

/-- The += of one _fragmento_completado call on the accumulator. -/
def fragmento_completado_tiempo (t dt : ℚ) : ℚ := t + dt

/-- Effect of one generar_fractal_paralelo call on the accumulator: no
reset, then one += per completed fragment with that fragment's duration. -/
def run_paralelo_tiempo (t : ℚ) (dts : List ℚ) : ℚ :=
  dts.foldl fragmento_completado_tiempo t

/-- Accumulator value after a sequence of parallel runs on one instance,
starting from the 0 written by __init__. -/
def tiempo_tras_runs (runs : List (List ℚ)) : ℚ :=
  runs.foldl run_paralelo_tiempo 0

/-- The fields of FractalJulia that the embedding tracks (proyecto.py lines
9-18).  The executor and the two lock objects are runtime handles whose
behaviour is modelled by the event semantics above. -/
structure FractalJulia where
  ancho : Nat
  alto : Nat
  max_iteraciones : Nat
  salida : Nat → Nat → Nat
  tiempo_comunicacion_total : ℚ

/-- FractalJulia.__init__ (proyecto.py lines 9-18): stores the dimensions
and cap unvalidated, zero-fills salida, zeroes the accumulator.  It is a
total function: no input is rejected. -/
def FractalJulia.init (ancho alto max_iteraciones : Nat) : FractalJulia :=
  { ancho := ancho
    alto := alto
    max_iteraciones := max_iteraciones
    salida := fun _ _ => 0
    tiempo_comunicacion_total := 0 }

/-!
Metrics of generar_fractal_y_graficar (proyecto.py lines 111-133).  Python
float division raises ZeroDivisionError on a zero divisor; pydiv embeds
this as an Except value.  num_tareas_secuencial = fractal.alto (line 120)
and num_tareas_paralelo = len(fractal.salida) = fractal.alto (line 121), so
both task counts are the parameter alto below.
-/

/-- Python float division: error on zero divisor, quotient otherwise. -/
def pydiv (a b : ℚ) : Except String ℚ :=
  if b = 0 then Except.error "ZeroDivisionError" else Except.ok (a / b)

/-- The derived metric values printed by generar_fractal_y_graficar. -/
structure Metricas where
  latencia_secuencial : ℚ
  latencia_paralelo : ℚ
  throughput_secuencial : ℚ
  throughput_paralelo : ℚ
  speedup : ℚ
  eficiencia : ℚ
  granularidad : ℚ
deriving DecidableEq, Repr

/-- The metric computations of proyecto.py lines 123-133 in source order:
each division is performed unconditionally; the first zero divisor raises.
t_sec and t_par are the elapsed times of the two runs, alto the task count
of both runs, num_procesadores the processor count, t_com the accumulated
communication time. -/
def metricas (t_sec t_par : ℚ) (alto num_procesadores : Nat) (t_com : ℚ) :
    Except String Metricas := do
  let lat_s ← pydiv t_sec (alto : ℚ)
  let lat_p ← pydiv t_par (alto : ℚ)
  let thr_s ← pydiv (alto : ℚ) t_sec
  let thr_p ← pydiv (alto : ℚ) t_par
  let sp ← pydiv t_sec t_par
  let ef ← pydiv sp (num_procesadores : ℚ)
  let gr ← pydiv t_par t_com
  return ⟨lat_s, lat_p, thr_s, thr_p, sp, ef, gr⟩

/-! Helper lemmas. -/

lemma Cplx.mul_def (a b : Cplx) :
    a * b = ⟨a.re * b.re - a.im * b.im, a.re * b.im + a.im * b.re⟩ := rfl

lemma Cplx.add_def (a b : Cplx) : a + b = ⟨a.re + b.re, a.im + b.im⟩ := rfl

lemma julia_loop_le (c : Cplx) : ∀ (fuel : Nat) (z : Cplx) (n : Nat),
    julia_loop c fuel z n ≤ n + fuel := by
  intro fuel
  induction fuel with
  | zero => intro z n; simp [julia_loop]
  | succ m ih =>
      intro z n
      simp only [julia_loop]
      split
      · exact le_trans (ih (z * z + c) (n + 1)) (by omega)
      · omega

lemma fragmentos_disjuntos (alto : Nat) : ∀ i j : Fin 4, i ≠ j → ∀ y : Nat,
    enFragmento ((fragmentos alto).getD (i : Nat) (0, 0)) y →
    ¬ enFragmento ((fragmentos alto).getD (j : Nat) (0, 0)) y := by
  intro i j hij y
  fin_cases i <;> fin_cases j <;> simp_all [fragmentos, enFragmento] <;> omega

lemma fragmentos_cubren (alto : Nat) : ∀ y : Nat,
    (∃ f ∈ fragmentos alto, enFragmento f y) ↔ y < alto := by
  intro y
  simp only [fragmentos, enFragmento, List.mem_cons, List.not_mem_nil, or_false,
    exists_eq_or_imp, exists_eq_left]
  omega

lemma run_paralelo_tiempo_eq : ∀ (dts : List ℚ) (t : ℚ),
    run_paralelo_tiempo t dts = t + dts.sum := by
  intro dts
  induction dts with
  | nil => intro t; simp [run_paralelo_tiempo]
  | cons d ds ih =>
      intro t
      simp only [run_paralelo_tiempo, List.foldl_cons, List.sum_cons] at *
      rw [show fragmento_completado_tiempo t d = t + d from rfl, ih]
      ring

lemma foldl_run_paralelo_eq : ∀ (runs : List (List ℚ)) (t : ℚ),
    runs.foldl run_paralelo_tiempo t = t + (runs.map List.sum).sum := by
  intro runs
  induction runs with
  | nil => intro t; simp
  | cons r rs ih =>
      intro t
      simp only [List.foldl_cons, List.map_cons, List.sum_cons, ih, run_paralelo_tiempo_eq]
      ring

lemma tiempo_tras_runs_eq (runs : List (List ℚ)) :
    tiempo_tras_runs runs = (runs.map List.sum).sum := by
  simpa [tiempo_tras_runs] using foldl_run_paralelo_eq runs 0

lemma foldl_run_paralelo_mono : ∀ (runs : List (List ℚ)) (t : ℚ),
    (∀ r ∈ runs, ∀ dt ∈ r, 0 ≤ dt) → t ≤ runs.foldl run_paralelo_tiempo t := by
  intro runs
  induction runs with
  | nil => intro t _; simp
  | cons r rs ih =>
      intro t h
      simp only [List.foldl_cons]
      have h1 : t ≤ run_paralelo_tiempo t r := by
        rw [run_paralelo_tiempo_eq]
        have : 0 ≤ r.sum := List.sum_nonneg (h r (List.mem_cons_self r rs))
        linarith
      have h2 : ∀ r2 ∈ rs, ∀ dt ∈ r2, 0 ≤ dt := by
        intro r2 hr2 dt hdt
        exact h r2 (List.mem_cons_of_mem r hr2) dt hdt
      exact le_trans h1 (ih (run_paralelo_tiempo t r) h2)


/-! Claim theorems. -/

/-- C5: for every complex constant c and starting value z, fractal_julia
terminates (it is a total function, structurally recursive on the remaining
iteration budget) and its result lies in [0, max_iteraciones]. -/
theorem fractal_julia_acotado (max_iteraciones : Nat) (c z : Cplx) :
    fractal_julia max_iteraciones c z ≤ max_iteraciones := by
  simpa using julia_loop_le c max_iteraciones z 0

/-- C3: for every alto with alto >= 4, the four planned row ranges are
pairwise disjoint, their union is exactly the rows below alto, each of the
first three fragments spans exactly alto / 4 rows, and the last fragment
runs from 3 * (alto / 4) to alto. -/
theorem fragmentos_particion_exacta (alto : Nat) (h : 4 ≤ alto) :
    (∀ i j : Fin 4, i ≠ j → ∀ y : Nat,
        enFragmento ((fragmentos alto).getD (i : Nat) (0, 0)) y →
        ¬ enFragmento ((fragmentos alto).getD (j : Nat) (0, 0)) y)
    ∧ (∀ y : Nat, (∃ f ∈ fragmentos alto, enFragmento f y) ↔ y < alto)
    ∧ (∀ i : Fin 4, (i : Nat) < 3 →
        ((fragmentos alto).getD (i : Nat) (0, 0)).2
          - ((fragmentos alto).getD (i : Nat) (0, 0)).1 = alto / 4)
    ∧ (fragmentos alto).getD 3 (0, 0) = (3 * (alto / 4), alto) := by
  refine ⟨fragmentos_disjuntos alto, fragmentos_cubren alto, ?_, by simp [fragmentos]⟩
  intro i hi
  fin_cases i <;> simp_all [fragmentos] <;> omega

/-- Witness for C3 at alto = 10. -/
theorem fragmentos_particion_exacta_witness :
    (fragmentos 10).getD 3 (0, 0) = (3 * (10 / 4), 10) :=
  (fragmentos_particion_exacta 10 (by norm_num)).2.2.2

/-- C10: for every alto, including alto < 4, the four planned row ranges
are pairwise disjoint and their union is exactly the rows below alto; when
alto < 4 the first three fragments are the empty range (0, 0) and the last
is (0, alto), so the partition stays exact. -/
theorem fragmentos_particion_todo_alto (alto : Nat) :
    (∀ i j : Fin 4, i ≠ j → ∀ y : Nat,
        enFragmento ((fragmentos alto).getD (i : Nat) (0, 0)) y →
        ¬ enFragmento ((fragmentos alto).getD (j : Nat) (0, 0)) y)
    ∧ (∀ y : Nat, (∃ f ∈ fragmentos alto, enFragmento f y) ↔ y < alto)
    ∧ (alto < 4 → fragmentos alto = [(0, 0), (0, 0), (0, 0), (0, alto)]) := by
  refine ⟨fragmentos_disjuntos alto, fragmentos_cubren alto, ?_⟩
  intro h
  have h4 : alto / 4 = 0 := by omega
  simp [fragmentos, h4]

/-- Witness for C10 at alto = 2. -/
theorem fragmentos_particion_todo_alto_witness :
    fragmentos 2 = [(0, 0), (0, 0), (0, 0), (0, 2)] :=
  (fragmentos_particion_todo_alto 2).2.2 (by norm_num)

/-- C1 (code bug): the schedule in which fragment 0 completes while the
orchestrator waits and the single condicion.wait() then returns is a valid
run of generar_fractal_paralelo, yet it leaves fragments 1-3 unmerged: with
ancho = alto = 4, max_iteraciones = 10, c = 0, the returned shared grid
still holds 0 at cell (x = 2, y = 2) while the sequential run computes 10
there, so the parallel output is not bit-identical to the sequential one. -/
theorem retorno_con_fragmentos_sin_fusionar :
    ejecutarOrq [.inicia_espera, .completado_durante 0, .retorna_espera]
      = some ⟨[true, false, false, false], true, true, true⟩
    ∧ salidaEstado 4 4 10 ⟨0, 0⟩ [true, false, false, false] 2 2 = 0
    ∧ generar_fractal_secuencial 4 4 10 ⟨0, 0⟩ 2 2 = 10 := by
  refine ⟨by decide, by decide, ?_⟩
  norm_num [generar_fractal_secuencial, coord, fractal_julia, julia_loop,
    Cplx.normSq, Cplx.mul_def, Cplx.add_def]

/-- C2 (code bug): the single condicion.wait() returns after the first
notify with three fragments still unmerged (first conjunct), and when all
four callbacks run at registration time (futures already done, notifies
lost) the orchestrator reaches a state from which no event is enabled: its
wait never returns, a deadlock (remaining conjuncts). -/
theorem espera_prematura_e_interbloqueo :
    ejecutarOrq [.inicia_espera, .completado_durante 0, .retorna_espera]
      = some ⟨[true, false, false, false], true, true, true⟩
    ∧ ejecutarOrq [.completado_antes 0, .completado_antes 1, .completado_antes 2,
        .completado_antes 3, .inicia_espera] = some estadoBloqueado
    ∧ estadoBloqueado.retornado = false
    ∧ (∀ e, pasoOrq estadoBloqueado e = none) := by
  refine ⟨by decide, by decide, by decide, ?_⟩
  intro e
  cases e with
  | completado_antes i => fin_cases i <;> simp [pasoOrq, estadoBloqueado]
  | inicia_espera => simp [pasoOrq, estadoBloqueado]
  | completado_durante i => fin_cases i <;> simp [pasoOrq, estadoBloqueado]
  | retorna_espera => simp [pasoOrq, estadoBloqueado]

/-- C4 (counterexample): two runs whose fragments take one time unit each;
after the second run the accumulator holds 2, not that run's own sum 1, so
it is not reset at the start of every parallel run. -/
theorem tiempo_sin_reinicio_contraejemplo :
    run_paralelo_tiempo (run_paralelo_tiempo 0 [1]) [1] = 2
    ∧ List.sum [(1 : ℚ)] = 1
    ∧ (2 : ℚ) ≠ 1 := by
  norm_num [run_paralelo_tiempo, fragmento_completado_tiempo]

/-- C4 (amended): generar_fractal_paralelo performs no reset; the
accumulator starts at the 0 written by the constructor and each run only
adds its fragments' times, so after a sequence of runs it holds the sum
over all those runs combined. -/
theorem tiempo_acumulado_sin_reinicio (runs : List (List ℚ)) :
    tiempo_tras_runs runs = (runs.map List.sum).sum
    ∧ ∀ (t : ℚ) (dts : List ℚ), run_paralelo_tiempo t dts = t + dts.sum :=
  ⟨tiempo_tras_runs_eq runs, fun t dts => run_paralelo_tiempo_eq dts t⟩

/-- C9: the accumulator is zeroed once at construction, each fragment
completion adds a nonnegative duration and never decreases it, after the
given runs it holds the combined sum over all of them, and its value after
any earlier portion of the runs is at most its final value. -/
theorem tiempo_comunicacion_no_decreciente (runs : List (List ℚ))
    (h : ∀ r ∈ runs, ∀ dt ∈ r, 0 ≤ dt) :
    (∀ ancho alto max_iteraciones : Nat,
        (FractalJulia.init ancho alto max_iteraciones).tiempo_comunicacion_total = 0)
    ∧ (∀ t dt : ℚ, 0 ≤ dt → t ≤ fragmento_completado_tiempo t dt)
    ∧ tiempo_tras_runs runs = (runs.map List.sum).sum
    ∧ (∀ ya faltan, runs = ya ++ faltan → tiempo_tras_runs ya ≤ tiempo_tras_runs runs) := by
  refine ⟨fun _ _ _ => rfl, ?_, tiempo_tras_runs_eq runs, ?_⟩
  · intro t dt hdt
    simp only [fragmento_completado_tiempo]
    linarith
  · intro ya faltan hsplit
    subst hsplit
    simp only [tiempo_tras_runs, List.foldl_append]
    refine foldl_run_paralelo_mono faltan _ ?_
    intro r hr dt hdt
    exact h r (List.mem_append_right ya hr) dt hdt

/-- Witness for C9 with two runs of one fragment each. -/
theorem tiempo_comunicacion_no_decreciente_witness :
    tiempo_tras_runs [[(1 : ℚ)], [(2 : ℚ)]] = ([[(1 : ℚ)], [(2 : ℚ)]].map List.sum).sum :=
  (tiempo_comunicacion_no_decreciente [[(1 : ℚ)], [(2 : ℚ)]] (by norm_num)).2.2.1

/-- C6 (counterexample): with ancho = alto = 4 the implemented transform
maps cell (x = 2, y = 2) to -1/2 + 0i, which is not 0 + 0i. -/
theorem coord_celda_central_contraejemplo :
    coord 4 4 2 2 = ⟨-(1 / 2), 0⟩ ∧ coord 4 4 2 2 ≠ ⟨0, 0⟩ := by
  norm_num [coord, Cplx.mk.injEq]

/-- C6 (amended): with ancho = alto = 4 cell (2, 2) maps to -1/2 + 0i, and
with c = 0 and max_iteraciones = 10 the fully merged parallel grid and the
sequential grid agree at that cell, both computing 10. -/
theorem celda_central_consistente :
    coord 4 4 2 2 = ⟨-(1 / 2), 0⟩
    ∧ salidaEstado 4 4 10 ⟨0, 0⟩ [true, true, true, true] 2 2
        = generar_fractal_secuencial 4 4 10 ⟨0, 0⟩ 2 2
    ∧ generar_fractal_secuencial 4 4 10 ⟨0, 0⟩ 2 2 = 10 := by
  refine ⟨by norm_num [coord, Cplx.mk.injEq], ?_, ?_⟩ <;>
    norm_num [salidaEstado, fragmento_merge, fragmentos, enFragmento, generar_fractal,
      generar_fractal_secuencial, List.range, List.range.loop, coord, fractal_julia,
      julia_loop, Cplx.normSq, Cplx.mul_def, Cplx.add_def]

/-- C7 (counterexample): FractalJulia.__init__ accepts alto = 2 < 4 without
any validation: the instance is constructed with the given fields and a
later run plans on it, the first three fragments empty. -/
theorem construccion_sin_validacion_contraejemplo :
    (FractalJulia.init 4 2 10).alto = 2
    ∧ (FractalJulia.init 4 2 10).tiempo_comunicacion_total = 0
    ∧ fragmentos (FractalJulia.init 4 2 10).alto = [(0, 0), (0, 0), (0, 0), (0, 2)] :=
  ⟨rfl, rfl, by decide⟩

/-- C7 (amended): the constructor validates nothing: for all dimensions it
stores the fields as given, and when alto < 4 a later run still proceeds,
planning three empty fragments and one final fragment covering every row. -/
theorem construccion_sin_validacion (ancho alto max_iteraciones : Nat) :
    (FractalJulia.init ancho alto max_iteraciones).ancho = ancho
    ∧ (FractalJulia.init ancho alto max_iteraciones).alto = alto
    ∧ (FractalJulia.init ancho alto max_iteraciones).max_iteraciones = max_iteraciones
    ∧ (alto < 4 → fragmentos (FractalJulia.init ancho alto max_iteraciones).alto
        = [(0, 0), (0, 0), (0, 0), (0, alto)]) := by
  refine ⟨rfl, rfl, rfl, ?_⟩
  intro h
  have h4 : alto / 4 = 0 := by omega
  simp [FractalJulia.init, fragmentos, h4]

/-- Witness for C7 at ancho = 4, alto = 2, max_iteraciones = 10. -/
theorem construccion_sin_validacion_witness :
    fragmentos (FractalJulia.init 4 2 10).alto = [(0, 0), (0, 0), (0, 0), (0, 2)] :=
  (construccion_sin_validacion 4 2 10).2.2.2 (by norm_num)

/-- C8 (counterexample): the metric computations perform their divisions
unconditionally: with zero accumulated communication time the granularity
division raises ZeroDivisionError, and with zero sequential elapsed time the
throughput division raises; no guarded branch yields a value instead. -/
theorem metricas_division_cero_contraejemplo :
    metricas 1 1 4 2 0 = Except.error "ZeroDivisionError"
    ∧ metricas 0 1 4 2 1 = Except.error "ZeroDivisionError" := by
  constructor <;> norm_num [metricas, pydiv, Except.bind, Except.instMonad]

/-- C8 (amended): no division in generar_fractal_y_graficar is guarded:
whenever every divisor is nonzero the plain quotients are produced, and a
zero communication time makes the computation raise ZeroDivisionError
rather than take a guarded branch. -/
theorem metricas_sin_guardas (t_sec t_par : ℚ) (alto num_procesadores : Nat) (t_com : ℚ)
    (h1 : (alto : ℚ) ≠ 0) (h2 : t_sec ≠ 0) (h3 : t_par ≠ 0)
    (h4 : (num_procesadores : ℚ) ≠ 0) :
    metricas t_sec t_par alto num_procesadores 0 = Except.error "ZeroDivisionError"
    ∧ (t_com ≠ 0 → metricas t_sec t_par alto num_procesadores t_com
        = Except.ok ⟨t_sec / (alto : ℚ), t_par / (alto : ℚ), (alto : ℚ) / t_sec,
            (alto : ℚ) / t_par, t_sec / t_par, t_sec / t_par / (num_procesadores : ℚ),
            t_par / t_com⟩) := by
  constructor
  · simp [metricas, pydiv, Except.bind, Except.instMonad, h1, h2, h3, h4]
  · intro h5
    simp [metricas, pydiv, Except.bind, Except.instMonad, Except.pure,
      h1, h2, h3, h4, h5]

/-- Witness for C8 at t_sec = 1, t_par = 2, alto = 4, two processors, zero
communication time. -/
theorem metricas_sin_guardas_witness :
    metricas 1 2 4 2 0 = Except.error "ZeroDivisionError" :=
  (metricas_sin_guardas 1 2 4 2 1 (by norm_num) (by norm_num) (by norm_num)
    (by norm_num)).1
